import Mathlib

/-!
Verification development for the pytest-postgresql repository.

The Python sources under `pytest_postgresql/` are shallowly embedded:
pure logic becomes Lean functions, the SQL statements issued through a
cursor become an explicit trace (a `List Stmt`), Python `Optional[str]`
becomes `Option String`, Python truthiness and `str()` conversion are
modelled explicitly, and fallible code returns `Except`/`Option`.
-/

set_option maxRecDepth 100000

namespace PytestPostgresql

/-- Python truthiness of an `Optional[str]` value: `None` and the empty
string are falsy, every other string is truthy. -/
def pyTruthy : Option String → Bool
  | none => false
  | some s => !(s == "")

/-- Python `str()`/f-string interpolation of an `Optional[str]` value:
`None` renders as the literal string `None`. -/
def pyStr : Option String → String
  | none => "None"
  | some s => s

/-- Port values accepted by the janitor constructor: `str | int`.  The
janitor never inspects the port, it only stores and forwards it. -/
inductive PortVal
  | strPort (s : String)
  | intPort (n : Int)
deriving DecidableEq, Repr

/-- Release of a parsed version, modelling `packaging.version.parse` for
the plain release strings this repository feeds it (`parse(str(version))`
on numbers and dotted numeric strings).  Only the release component is
modelled because the janitor merely stores the parsed value. -/
structure PackagingVersion where
  release : List Nat
deriving DecidableEq, Repr

/-- Numeric value of a list of decimal digit characters. -/
def digitsToNat (l : List Char) : Nat :=
  l.foldl (fun acc c => acc * 10 + (c.toNat - 48)) 0

/-- Split a character list at every character satisfying `sep`. -/
def splitOnSep (sep : Char → Bool) : List Char → List Char → List (List Char)
  | acc, [] => [acc.reverse]
  | acc, c :: rest =>
    if sep c then acc.reverse :: splitOnSep sep [] rest
    else splitOnSep sep (c :: acc) rest

/-- Parse of a plain release version string: dot-separated decimal
segments, as `packaging.version.parse` produces for inputs such as
`"10"`, `"10.2"`.  Models the external `packaging` collaborator. -/
def parseVersion (s : String) : PackagingVersion :=
  ⟨(splitOnSep (fun c => c == '.') [] s.toList).map digitsToNat⟩

/-- Version argument accepted by the janitor constructor:
`str | float | Version` (the tests also pass `int`); numbers are
modelled by `Int`. -/
inductive VersionInput
  | vstr (s : String)
  | vnum (n : Int)
  | vver (v : PackagingVersion)
deriving DecidableEq, Repr

/-- Version normalization performed by `DatabaseJanitor.__init__`
(janitor.py lines 62-65): a value that is not already a `Version` is
parsed from its `str()` form; a `Version` is stored unchanged. -/
def normalizeVersion : VersionInput → PackagingVersion
  | .vver v => v
  | .vstr s => parseVersion s
  | .vnum n => parseVersion (toString n)

/-- Statements executed through an administrative cursor: either a plain
`cur.execute(sql)` or a parameterized `cur.execute(sql, (param,))`. -/
inductive Stmt
  | exec (sql : String)
  | execParam (sql : String) (param : String)
deriving DecidableEq, Repr

/-- State of a `DatabaseJanitor` (janitor.py), as stored by its
constructor. -/
structure DatabaseJanitor where
  user : String
  password : Option String
  host : String
  port : PortVal
  dbname : Option String
  template_dbname : Option String
  isolation_level : Option Nat
  connection_timeout : Nat
  version : PackagingVersion
deriving DecidableEq, Repr

/-- Arguments of `DatabaseJanitor.__init__` before validation.  The
`isolation_level` is opaque to the janitor and modelled by an optional
numeral; `connection_timeout` defaults to 60 in the source. -/
structure JanitorArgs where
  user : String
  host : String
  port : PortVal
  version : VersionInput
  dbname : Option String
  template_dbname : Option String
  password : Option String
  isolation_level : Option Nat
  connection_timeout : Nat
deriving DecidableEq, Repr

/-- Exact message of the `ValueError` raised by the constructor. -/
def valueErrorMsg : String :=
  "At least one of the dbname or template_dbname has to be filled."

/-- Embedding of `DatabaseJanitor.__init__` (janitor.py lines 25-65):
raises `ValueError` when neither `dbname` nor `template_dbname` is
truthy, and otherwise stores the fields, normalizing `version`. -/
def mkDatabaseJanitor (a : JanitorArgs) : Except String DatabaseJanitor :=
  if !(pyTruthy a.dbname || pyTruthy a.template_dbname) then
    .error valueErrorMsg
  else
    .ok
      { user := a.user
        password := a.password
        host := a.host
        port := a.port
        dbname := a.dbname
        template_dbname := a.template_dbname
        isolation_level := a.isolation_level
        connection_timeout := a.connection_timeout
        version := normalizeVersion a.version }

/-- Embedding of `DatabaseJanitor.is_template` (janitor.py lines 80-82):
true exactly when `dbname` is `None`. -/
def DatabaseJanitor.isTemplate (j : DatabaseJanitor) : Bool :=
  j.dbname.isNone

/-- Verbatim SQL text passed to the parameterized
`_terminate_connection` execute call (janitor.py lines 101-108); the
Python source builds it by adjacent-literal concatenation, hence the
missing space before `FROM`. -/
def terminateConnectionSql : String :=
  "SELECT pg_terminate_backend(pg_stat_activity.pid)FROM pg_stat_activity WHERE pg_stat_activity.datname = %s;"

/-- Embedding of `DatabaseJanitor._terminate_connection`: a
parameterized execute with the database name as the sole parameter. -/
def terminateConnection (dbname : String) : Stmt :=
  .execParam terminateConnectionSql dbname

/-- Embedding of `DatabaseJanitor._dont_datallowconn` (janitor.py lines
97-99). -/
def dontDatallowconn (dbname : String) : Stmt :=
  .exec ("ALTER DATABASE \"" ++ dbname ++ "\" with allow_connections false;")

/-- Embedding of `DatabaseJanitor.init` (janitor.py lines 67-78) as the
trace of SQL statements it executes, following the source's branch
structure: template-managing janitors create the template database with
`is_template = true`; plain janitors create the database directly; a
janitor with both names set first terminates backends on the template
and then creates the database from the template. -/
def DatabaseJanitor.initStmts (j : DatabaseJanitor) : List Stmt :=
  if j.isTemplate then
    [.exec ("CREATE DATABASE \"" ++ pyStr j.template_dbname ++ "\" WITH is_template = true;")]
  else
    match j.template_dbname with
    | none => [.exec ("CREATE DATABASE \"" ++ pyStr j.dbname ++ "\";")]
    | some tpl =>
      [terminateConnection tpl,
       .exec ("CREATE DATABASE \"" ++ pyStr j.dbname ++ "\" TEMPLATE \"" ++ tpl ++ "\";")]

/-- Resolution of the database to drop (janitor.py line 88): the
template name when managing a template, the plain `dbname` otherwise. -/
def DatabaseJanitor.dbToDrop (j : DatabaseJanitor) : Option String :=
  if j.isTemplate then j.template_dbname else j.dbname

/-- Embedding of `DatabaseJanitor.drop` (janitor.py lines 84-95): the
`assert db_to_drop` fails on a falsy target (an `AssertionError`);
otherwise the janitor disallows new connections, terminates backends,
clears the template flag when managing a template, and drops the
database. -/
def DatabaseJanitor.dropStmts (j : DatabaseJanitor) : Except String (List Stmt) :=
  match j.dbToDrop with
  | none => .error "AssertionError"
  | some d =>
    if d == "" then .error "AssertionError"
    else
      .ok
        ([dontDatallowconn d, terminateConnection d]
          ++ (if j.isTemplate then
                [.exec ("ALTER DATABASE \"" ++ d ++ "\" with is_template false;")]
              else [])
          ++ [.exec ("DROP DATABASE IF EXISTS \"" ++ d ++ "\";")])

/-- Load directive accepted by `DatabaseJanitor.load` (janitor.py lines
110-128): a filesystem path to an SQL file, a dotted/colon import
string, or a raw callable (identified opaquely). -/
inductive LoadDirective
  | sqlPath (p : String)
  | dotted (s : String)
  | callable (id : Nat)
deriving DecidableEq, Repr

/-- Result of `build_loader` (loader.py lines 12-24): a `Path` becomes
the SQL-file loader bound to that path, a string is split into a module
path and an attribute name, and a callable passes through. -/
inductive ResolvedLoader
  | sqlFileLoader (p : String)
  | importedCallable (importPath : String) (loaderName : String)
  | passthrough (id : Nat)
deriving DecidableEq, Repr

/-- Split at the first `maxsplit` characters matching `sep`, keeping the
remainder whole — the behaviour of Python's `re.split(pat, s, maxsplit)`
for a single-character-class pattern. -/
def splitMaxAux (sep : Char → Bool) : Nat → List Char → List Char → List (List Char)
  | _, acc, [] => [acc.reverse]
  | 0, acc, c :: rest => splitMaxAux sep 0 (c :: acc) rest
  | n + 1, acc, c :: rest =>
    if sep c then acc.reverse :: splitMaxAux sep n [] rest
    else splitMaxAux sep (n + 1) (c :: acc) rest

/-- Embedding of `re.split("[.:]", load, maxsplit=2)` from loader.py
line 17. -/
def reSplitDotColon (s : String) : List String :=
  (splitMaxAux (fun c => c == '.' || c == ':') 2 [] s.toList).map (fun l => ⟨l⟩)

/-- Embedding of `build_loader` (loader.py lines 12-24). -/
def buildLoader : LoadDirective → ResolvedLoader
  | .sqlPath p => .sqlFileLoader p
  | .dotted s =>
    let loaderParts := reSplitDotColon s
    .importedCallable (String.intercalate "." loaderParts.dropLast) (loaderParts.getLastD "")
  | .callable id => .passthrough id

/-- Record of the single call `load()` makes: the resolved loader and
the exact keyword arguments it is invoked with (janitor.py lines
120-128). -/
structure LoaderCallRecord where
  loader : ResolvedLoader
  host : String
  port : PortVal
  user : String
  dbname : Option String
  password : Option String
deriving DecidableEq, Repr

/-- Database that `load()` targets (janitor.py line 120): the template
when the janitor manages one, the plain `dbname` otherwise. -/
def DatabaseJanitor.dbToLoad (j : DatabaseJanitor) : Option String :=
  if j.isTemplate then j.template_dbname else j.dbname

/-- Embedding of `DatabaseJanitor.load` (janitor.py lines 110-128):
resolves the directive through `build_loader` and invokes the result
with exactly the host, port, user, dbname and password arguments. -/
def DatabaseJanitor.loadCall (j : DatabaseJanitor) (directive : LoadDirective) :
    LoaderCallRecord where
  loader := buildLoader directive
  host := j.host
  port := j.port
  user := j.user
  dbname := j.dbToLoad
  password := j.password

/-- Discrete model of the Retry primitive.

Modelled from the spec: `retry` (`pytest_postgresql/retry.py`) is absent
from the sources; per spec section 4.1 it repeatedly invokes the
operation until it succeeds or `timeout` seconds have elapsed, sleeping
between failing attempts, and on expiry fails with a `TimeoutError`.
Time is discretized to one unit per attempt: the operation is attempted
at instants `0, 1, …, timeout`, and the model returns the first instant
at which it succeeds, or `none` for the timeout failure. -/
def retryModel (succeedsAt : Nat → Bool) (timeout : Nat) : Option Nat :=
  (List.range (timeout + 1)).find? succeedsAt

/-- Keyword arguments of the `psycopg.connect` call made inside
`cursor()` (janitor.py lines 134-141). -/
structure ConnectArgs where
  dbname : String
  user : String
  password : Option String
  host : String
  port : PortVal
deriving DecidableEq, Repr

/-- Observable events of one use of the `cursor()` context manager. -/
inductive CursorEvent
  | connected (args : ConnectArgs)
  | isolationSet (level : Option Nat)
  | autocommitSet (enabled : Bool)
  | cursorOpened
  | bodyEntered
  | cursorClosed
  | connClosed
deriving DecidableEq, Repr

/-- Default control database of `cursor()` (janitor.py line 131). -/
def cursorDefaultDbname : String := "postgres"

/-- Embedding of `DatabaseJanitor.cursor` (janitor.py lines 130-152) as
the trace of one use of the context manager.  The connection is opened
through the retry primitive with the janitor's connection timeout
(`none` models the propagated `TimeoutError`); on success the
connection's isolation level is applied, autocommit is switched on, a
cursor is opened, the body runs, and the `finally` block closes the
cursor and then the connection whether or not the body raised
(`bodyRaises`); a body exception then propagates, recorded as the
second component of the result. -/
def DatabaseJanitor.cursorTrace (j : DatabaseJanitor) (succeedsAt : Nat → Bool)
    (bodyRaises : Bool) (dbname : String) : Option (List CursorEvent × Bool) :=
  match retryModel succeedsAt j.connection_timeout with
  | none => none
  | some _ =>
    some
      ([.connected
          { dbname := dbname
            user := j.user
            password := j.password
            host := j.host
            port := j.port },
        .isolationSet j.isolation_level,
        .autocommitSet true,
        .cursorOpened,
        .bodyEntered,
        .cursorClosed,
        .connClosed],
       bodyRaises)

/-- Use of `cursor()` with no argument, taking the Python default. -/
def DatabaseJanitor.cursorTraceDefault (j : DatabaseJanitor) (succeedsAt : Nat → Bool)
    (bodyRaises : Bool) : Option (List CursorEvent × Bool) :=
  j.cursorTrace succeedsAt bodyRaises cursorDefaultDbname

/-- Concrete janitor cloning `stories1` from template `storiestpl`
(spec section 8's example scenario). -/
def janitorStories : DatabaseJanitor where
  user := "user"
  password := some "some_password"
  host := "host"
  port := .strPort "1234"
  dbname := some "stories1"
  template_dbname := some "storiestpl"
  isolation_level := none
  connection_timeout := 60
  version := parseVersion "10"

/-- Concrete template-managing janitor (`dbname` unset). -/
def janitorTemplateOnly : DatabaseJanitor where
  user := "user"
  password := none
  host := "host"
  port := .strPort "1234"
  dbname := none
  template_dbname := some "storiestpl"
  isolation_level := none
  connection_timeout := 60
  version := parseVersion "10"

/-- C1: `DatabaseJanitor.init()` issues exactly one of three verbatim
`CREATE DATABASE` commands, selected by which names are set: with
`dbname` unset it creates the template with `is_template = true`; with
`template_dbname` unset it creates the plain database; with both set it
first terminates all backends connected to the template database and
then creates the database `TEMPLATE` the template. -/
theorem janitor_init_sql_selection (j : DatabaseJanitor) :
    (∀ t, j.dbname = none → j.template_dbname = some t →
      j.initStmts = [.exec ("CREATE DATABASE \"" ++ t ++ "\" WITH is_template = true;")])
    ∧ (∀ d, j.dbname = some d → j.template_dbname = none →
      j.initStmts = [.exec ("CREATE DATABASE \"" ++ d ++ "\";")])
    ∧ (∀ d t, j.dbname = some d → j.template_dbname = some t →
      j.initStmts =
        [terminateConnection t,
         .exec ("CREATE DATABASE \"" ++ d ++ "\" TEMPLATE \"" ++ t ++ "\";")]) := by
  refine ⟨fun t hd ht => ?_, fun d hd ht => ?_, fun d t hd ht => ?_⟩ <;>
    simp [DatabaseJanitor.initStmts, DatabaseJanitor.isTemplate, pyStr, hd, ht]

/-- Witness for C1 at the concrete cloning janitor. -/
theorem janitor_init_sql_selection_witness :
    janitorStories.initStmts =
      [terminateConnection "storiestpl",
       .exec ("CREATE DATABASE \"" ++ "stories1" ++ "\" TEMPLATE \"" ++ "storiestpl" ++ "\";")] :=
  (janitor_init_sql_selection janitorStories).2.2 "stories1" "storiestpl" rfl rfl

/-- C2: `drop()` resolves the target to the template name when
`is_template()` is true and to the plain `dbname` otherwise, and then
executes exactly, in order: disallow new connections, terminate
backends, clear `is_template` (template janitors only), and `DROP
DATABASE IF EXISTS` — stated under the source's own `assert db_to_drop`
(the target name must be truthy). -/
theorem janitor_drop_order (j : DatabaseJanitor) :
    (j.isTemplate = true → j.dbToDrop = j.template_dbname)
    ∧ (j.isTemplate = false → j.dbToDrop = j.dbname)
    ∧ (∀ d, j.isTemplate = true → j.template_dbname = some d → d ≠ "" →
        j.dropStmts = .ok
          [dontDatallowconn d,
           terminateConnection d,
           .exec ("ALTER DATABASE \"" ++ d ++ "\" with is_template false;"),
           .exec ("DROP DATABASE IF EXISTS \"" ++ d ++ "\";")])
    ∧ (∀ d, j.isTemplate = false → j.dbname = some d → d ≠ "" →
        j.dropStmts = .ok
          [dontDatallowconn d,
           terminateConnection d,
           .exec ("DROP DATABASE IF EXISTS \"" ++ d ++ "\";")]) := by
  refine ⟨fun h => ?_, fun h => ?_, fun d h hd hne => ?_, fun d h hd hne => ?_⟩
  · simp [DatabaseJanitor.dbToDrop, h]
  · simp [DatabaseJanitor.dbToDrop, h]
  · simp [DatabaseJanitor.dropStmts, DatabaseJanitor.dbToDrop, h, hd, hne]
  · simp [DatabaseJanitor.dropStmts, DatabaseJanitor.dbToDrop, h, hd, hne]

/-- Witness for C2 at the concrete template-managing janitor. -/
theorem janitor_drop_order_witness :
    janitorTemplateOnly.dropStmts = .ok
      [dontDatallowconn "storiestpl",
       terminateConnection "storiestpl",
       .exec ("ALTER DATABASE \"" ++ "storiestpl" ++ "\" with is_template false;"),
       .exec ("DROP DATABASE IF EXISTS \"" ++ "storiestpl" ++ "\";")] :=
  (janitor_drop_order janitorTemplateOnly).2.2.1 "storiestpl" rfl rfl (by decide)

/-- Constructor arguments used by `test_version_cast`: version given as
the number `10`. -/
def argsVersionTen : JanitorArgs where
  user := "user"
  host := "host"
  port := .strPort "1234"
  version := .vnum 10
  dbname := some "database_name"
  template_dbname := none
  password := none
  isolation_level := none
  connection_timeout := 60

/-- Janitor produced by `mkDatabaseJanitor argsVersionTen`. -/
def janitorVersionTen : DatabaseJanitor where
  user := "user"
  password := none
  host := "host"
  port := .strPort "1234"
  dbname := some "database_name"
  template_dbname := none
  isolation_level := none
  connection_timeout := 60
  version := parseVersion "10"

/-- C9: the constructor stores a single canonical parsed version: a
successful construction stores `normalizeVersion` of the input, a
`Version` input is stored unchanged, non-`Version` inputs are parsed
from their `str()` form, and the forms `"10"`, `10` and `parse("10")`
all yield equal stored values. -/
theorem janitor_version_normalization :
    (∀ a j, mkDatabaseJanitor a = .ok j → j.version = normalizeVersion a.version)
    ∧ (∀ v, normalizeVersion (.vver v) = v)
    ∧ (∀ s, normalizeVersion (.vstr s) = parseVersion s)
    ∧ (∀ n, normalizeVersion (.vnum n) = parseVersion (toString n))
    ∧ normalizeVersion (.vstr "10") = parseVersion "10"
    ∧ normalizeVersion (.vnum 10) = parseVersion "10"
    ∧ normalizeVersion (.vver (parseVersion "10")) = parseVersion "10" := by
  refine ⟨fun a j h => ?_, fun v => rfl, fun s => rfl, fun n => rfl, rfl, rfl, rfl⟩
  simp only [mkDatabaseJanitor] at h
  split at h
  · exact absurd h (by simp)
  · cases h
    rfl

/-- Witness for C9: construction with version `10` stores the canonical
parse of `"10"`. -/
theorem janitor_version_normalization_witness :
    mkDatabaseJanitor argsVersionTen = .ok janitorVersionTen
    ∧ janitorVersionTen.version = normalizeVersion (.vnum 10) :=
  ⟨rfl, janitor_version_normalization.1 argsVersionTen janitorVersionTen rfl⟩

/-- C7: `load(directive)` resolves the directive through the loader
dispatch and invokes the result with exactly the janitor's host, port,
user, password, and a dbname that is the template name when the janitor
manages a template and the plain `dbname` otherwise; the dotted and
colon import forms used by the tests both resolve to the
`tests.loader` / `load_database` callable. -/
theorem janitor_load_dispatch (j : DatabaseJanitor) (d : LoadDirective) :
    (j.loadCall d).loader = buildLoader d
    ∧ (j.loadCall d).host = j.host
    ∧ (j.loadCall d).port = j.port
    ∧ (j.loadCall d).user = j.user
    ∧ (j.loadCall d).password = j.password
    ∧ (j.isTemplate = true → (j.loadCall d).dbname = j.template_dbname)
    ∧ (j.isTemplate = false → (j.loadCall d).dbname = j.dbname)
    ∧ buildLoader (.dotted "tests.loader.load_database")
        = .importedCallable "tests.loader" "load_database"
    ∧ buildLoader (.dotted "tests.loader:load_database")
        = .importedCallable "tests.loader" "load_database" := by
  refine ⟨rfl, rfl, rfl, rfl, rfl, fun h => ?_, fun h => ?_, by decide, by decide⟩ <;>
    simp [DatabaseJanitor.loadCall, DatabaseJanitor.dbToLoad, h]

/-- Witness for C7 at the template-managing janitor and the dotted
directive of `test_janitor_populate`. -/
theorem janitor_load_dispatch_witness :
    (janitorTemplateOnly.loadCall (.dotted "tests.loader.load_database")).dbname
      = janitorTemplateOnly.template_dbname :=
  (janitor_load_dispatch janitorTemplateOnly (.dotted "tests.loader.load_database")).2.2.2.2.2.1 rfl

/-- C6: `cursor()` with no argument connects to the control database
`postgres`, through the retry primitive up to the configured connection
timeout (a server that never accepts within the timeout yields the
timeout failure), applies the requested isolation level, switches the
connection to autocommit, and on every exit path — body returning or
raising — the last two events are closing the cursor and then the
connection. -/
theorem janitor_cursor_scoped (j : DatabaseJanitor) (succeedsAt : Nat → Bool)
    (bodyRaises : Bool) :
    ((∃ t, t ≤ j.connection_timeout ∧ succeedsAt t = true) →
      ((j.cursorTraceDefault succeedsAt bodyRaises).isSome = true
        ∧ ((j.cursorTraceDefault succeedsAt bodyRaises).getD ([], false)).2 = bodyRaises
        ∧ ((j.cursorTraceDefault succeedsAt bodyRaises).getD ([], false)).1.head?
            = some (.connected
                { dbname := cursorDefaultDbname
                  user := j.user
                  password := j.password
                  host := j.host
                  port := j.port })
        ∧ CursorEvent.isolationSet j.isolation_level
            ∈ ((j.cursorTraceDefault succeedsAt bodyRaises).getD ([], false)).1
        ∧ CursorEvent.autocommitSet true
            ∈ ((j.cursorTraceDefault succeedsAt bodyRaises).getD ([], false)).1
        ∧ ((j.cursorTraceDefault succeedsAt bodyRaises).getD ([], false)).1.reverse.take 2
            = [.connClosed, .cursorClosed]))
    ∧ ((∀ t, t ≤ j.connection_timeout → succeedsAt t = false) →
      j.cursorTraceDefault succeedsAt bodyRaises = none) := by
  constructor
  · rintro ⟨t, ht, hs⟩
    have hfind : (retryModel succeedsAt j.connection_timeout).isSome = true := by
      rw [retryModel, List.find?_isSome]
      exact ⟨t, List.mem_range.mpr (Nat.lt_succ_of_le ht), hs⟩
    unfold DatabaseJanitor.cursorTraceDefault DatabaseJanitor.cursorTrace
    cases h : retryModel succeedsAt j.connection_timeout with
    | none => rw [h] at hfind; simp at hfind
    | some u => simp
  · intro hfail
    have hfind : retryModel succeedsAt j.connection_timeout = none := by
      rw [retryModel, List.find?_eq_none]
      intro x hx
      simp only [Bool.not_eq_true]
      exact hfail x (Nat.lt_succ_iff.mp (List.mem_range.mp hx))
    unfold DatabaseJanitor.cursorTraceDefault DatabaseJanitor.cursorTrace
    rw [hfind]

/-- Witness for C6: a server accepting connections at instant 3. -/
theorem janitor_cursor_scoped_witness :
    (janitorStories.cursorTraceDefault (fun t => t == 3) true).isSome = true
    ∧ ((janitorStories.cursorTraceDefault (fun t => t == 3) true).getD ([], false)).2 = true
    ∧ ((janitorStories.cursorTraceDefault (fun t => t == 3) true).getD ([], false)).1.head?
        = some (.connected
            { dbname := cursorDefaultDbname
              user := janitorStories.user
              password := janitorStories.password
              host := janitorStories.host
              port := janitorStories.port })
    ∧ CursorEvent.isolationSet janitorStories.isolation_level
        ∈ ((janitorStories.cursorTraceDefault (fun t => t == 3) true).getD ([], false)).1
    ∧ CursorEvent.autocommitSet true
        ∈ ((janitorStories.cursorTraceDefault (fun t => t == 3) true).getD ([], false)).1
    ∧ ((janitorStories.cursorTraceDefault (fun t => t == 3) true).getD ([], false)).1.reverse.take 2
        = [.connClosed, .cursorClosed] :=
  (janitor_cursor_scoped janitorStories (fun t => t == 3) true).1 ⟨3, by decide, rfl⟩

/-- Arguments of the degenerate corner: `dbname` is the empty string and
`template_dbname` is set. -/
def cornerArgs : JanitorArgs where
  user := "user"
  host := "host"
  port := .strPort "1234"
  version := .vnum 10
  dbname := some ""
  template_dbname := some "tpl"
  password := none
  isolation_level := none
  connection_timeout := 60

/-- Janitor produced by `mkDatabaseJanitor cornerArgs`. -/
def cornerJanitor : DatabaseJanitor where
  user := "user"
  password := none
  host := "host"
  port := .strPort "1234"
  dbname := some ""
  template_dbname := some "tpl"
  isolation_level := none
  connection_timeout := 60
  version := parseVersion "10"

/-- C10: the constructor raises `ValueError` exactly when both `dbname`
and `template_dbname` are falsy (`None` or the empty string); on
success `is_template()` is true exactly when `dbname` is `None`; and
the corner janitor built from `dbname = ""` with a non-empty template
is accepted, reports `is_template() = false`, and `drop()` resolves the
empty string as its target. -/
theorem janitor_validation_empty_dbname (a : JanitorArgs) :
    (mkDatabaseJanitor a = .error valueErrorMsg ↔
      ((a.dbname = none ∨ a.dbname = some "")
        ∧ (a.template_dbname = none ∨ a.template_dbname = some "")))
    ∧ (∀ j, mkDatabaseJanitor a = .ok j → (j.isTemplate = true ↔ j.dbname = none))
    ∧ mkDatabaseJanitor cornerArgs = .ok cornerJanitor
    ∧ cornerJanitor.isTemplate = false
    ∧ cornerJanitor.dbToDrop = some "" := by
  refine ⟨?_, fun j h => ?_, rfl, by decide, by decide⟩
  · constructor
    · intro h
      simp only [mkDatabaseJanitor] at h
      split at h
      · rename_i hcond
        cases hdb : a.dbname with
        | none =>
          cases htp : a.template_dbname with
          | none => simp
          | some t => simp [pyTruthy, hdb, htp] at hcond; simp [htp, hcond]
        | some d =>
          cases htp : a.template_dbname with
          | none => simp [pyTruthy, hdb, htp] at hcond; simp [hdb, hcond]
          | some t =>
            simp [pyTruthy, hdb, htp] at hcond
            simp [hdb, htp, hcond]
      · exact absurd h (by simp)
    · intro ⟨h1, h2⟩
      have : pyTruthy a.dbname = false := by
        rcases h1 with h | h <;> simp [pyTruthy, h]
      have : pyTruthy a.template_dbname = false := by
        rcases h2 with h | h <;> simp [pyTruthy, h]
      simp_all [mkDatabaseJanitor]
  · simp only [mkDatabaseJanitor] at h
    split at h
    · exact absurd h (by simp)
    · cases h
      simp [DatabaseJanitor.isTemplate, Option.isNone_iff_eq_none]

/-- Witness for C10 at the corner janitor. -/
theorem janitor_validation_empty_dbname_witness :
    mkDatabaseJanitor cornerArgs = .ok cornerJanitor
    ∧ (cornerJanitor.isTemplate = true ↔ cornerJanitor.dbname = none) :=
  ⟨rfl,
   (janitor_validation_empty_dbname cornerArgs).2.1 cornerJanitor rfl⟩

/-- Name of the port claim file created in the shared temp directory
(process.py line 157). -/
def portFileName (p : Nat) : String :=
  "postgresql-" ++ toString p ++ ".port"

/-- Content written into the claim file (process.py line 165),
including the trailing newline. -/
def portFileContent (p : Nat) : String :=
  "pg_port " ++ toString p ++ "\n"

/-- Atomic exclusive creation, the semantics of `open(path, "x")` on the
shared filesystem: creation fails exactly when the file already exists,
and a successful creation makes the file visible to every later
attempt.  The filesystem is the list of existing file names. -/
def createExclusive (fs : List String) (name : String) : Option (List String) :=
  if name ∈ fs then none else some (name :: fs)

/-- Outcome of the port-allocation loop of `postgresql_proc_fixture`
(process.py lines 152-174). -/
inductive AllocOutcome
  | allocated (port : Nat) (attempted : List Nat) (fs : List String)
  | exhausted (attemptedPortsMsg : List Nat) (attemptsMsg : Nat)
  | portAlreadyUsed (port : Nat)
  | noPortFound
deriving DecidableEq, Repr

/-- Embedding of the port-allocation loop of `postgresql_proc_fixture`
(process.py lines 152-174).  `choose` models `_pg_port` / the external
`port_for.get_port` (given the excluded ports, it proposes a candidate
or `none`, the uncaught `assert` failure); `fs` is the shared temp
directory.  Each iteration adds the candidate to `used` before the
exclusive create, so a colliding port stays excluded; a collision
(`FileExistsError`) raises `PortForException` once `n` reaches
`searchCount`, reporting `n` and every port in `used`, and otherwise
retries with `n + 1`.  A candidate already in `used` raises the
uncaught in-use `PortForException`. -/
def allocLoop (choose : List Nat → Option Nat) (searchCount : Nat) (fs : List String)
    (used : List Nat) (n : Nat) : AllocOutcome :=
  match choose used with
  | none => .noPortFound
  | some p =>
    if p ∈ used then .portAlreadyUsed p
    else
      match createExclusive fs (portFileName p) with
      | some fsNew => .allocated p (p :: used) fsNew
      | none =>
        if hle : searchCount ≤ n then .exhausted (p :: used) n
        else allocLoop choose searchCount fs (p :: used) (n + 1)
termination_by searchCount - n
decreasing_by omega

/-- C3: every `FileExistsError` from the claim-file creation
is treated as a collision — the colliding port stays in the excluded
set and selection is retried with the collision counter increased — and
a collision occurring once the counter has reached `port_search_count`
(which, starting from zero, happens on collision number
`port_search_count + 1`) aborts with the port-selection-exhausted
`PortForException` whose message reports every port attempted so far,
the colliding one included. -/
theorem port_collision_retry_and_exhaustion (choose : List Nat → Option Nat)
    (searchCount : Nat) (fs : List String) (used : List Nat) (n p : Nat) :
    (choose used = some p → p ∉ used → portFileName p ∈ fs →
      ((n < searchCount →
          allocLoop choose searchCount fs used n
            = allocLoop choose searchCount fs (p :: used) (n + 1))
        ∧ (searchCount ≤ n →
          allocLoop choose searchCount fs used n = .exhausted (p :: used) n)))
    ∧ (choose used = some p → p ∉ used → portFileName p ∉ fs →
        allocLoop choose searchCount fs used n
          = .allocated p (p :: used) (portFileName p :: fs)) := by
  constructor
  · intro hc hu hcol
    constructor
    · intro hlt
      rw [allocLoop, hc]
      simp [hu, createExclusive, hcol, Nat.not_le.mpr hlt]
    · intro hge
      rw [allocLoop, hc]
      simp [hu, createExclusive, hcol, hge]
  · intro hc hu hfree
    rw [allocLoop, hc]
    simp [hu, createExclusive, hfree]

/-- Witness for C3: with two claim files already present and a chooser
proposing 2005 then 2006, the loop with `port_search_count = 1` retries
once and then exhausts, naming both attempted ports. -/
theorem port_collision_retry_and_exhaustion_witness :
    allocLoop (fun used => some (2005 + used.length)) 1
      [portFileName 2005, portFileName 2006] [] 0
      = allocLoop (fun used => some (2005 + used.length)) 1
          [portFileName 2005, portFileName 2006] [2005] 1
    ∧ allocLoop (fun used => some (2005 + used.length)) 1
        [portFileName 2005, portFileName 2006] [2005] 1
      = .exhausted [2006, 2005] 1 := by
  constructor
  · exact ((port_collision_retry_and_exhaustion (fun used => some (2005 + used.length)) 1
      [portFileName 2005, portFileName 2006] [] 0 2005).1 rfl (by decide) (by decide)).1
      (by decide)
  · exact ((port_collision_retry_and_exhaustion (fun used => some (2005 + used.length)) 1
      [portFileName 2005, portFileName 2006] [2005] 1 2006).1 rfl (by decide) (by decide)).2
      (by decide)

/-- C5 counterexample: the claim file for port 5432 is named with the
service name `postgresql`, yet its content line does not carry that
service name (`postgresql_port 5432`) — it is `pg_port 5432`; nor is
the file named with the `pg` service of the content
(`pg-5432.port`). -/
theorem port_claim_file_service_mismatch :
    portFileName 5432 = "postgresql-5432.port"
    ∧ portFileContent 5432 = "pg_port 5432\n"
    ∧ portFileContent 5432 ≠ "postgresql_port 5432\n"
    ∧ portFileName 5432 ≠ "pg-5432.port" := by
  refine ⟨by decide, by decide, by decide, by decide⟩

/-- C5 (amended): the claim file for port `p` is created at
`<basetemp>/postgresql-<p>.port` with exclusive semantics — creation
fails exactly when the file already exists — and its content is the
single line `pg_port <p>` (prefix `pg`, not the `postgresql` of the
file name). -/
theorem port_claim_file_shape (p : Nat) (fs : List String) :
    portFileName p = "postgresql-" ++ toString p ++ ".port"
    ∧ portFileContent p = "pg_port " ++ toString p ++ "\n"
    ∧ (portFileName p ∈ fs → createExclusive fs (portFileName p) = none)
    ∧ (portFileName p ∉ fs →
        createExclusive fs (portFileName p) = some (portFileName p :: fs)) := by
  refine ⟨rfl, rfl, fun h => ?_, fun h => ?_⟩ <;> simp [createExclusive, h]

/-- Witness for C5 (amended) at port 5432 on an empty directory. -/
theorem port_claim_file_shape_witness :
    createExclusive [] (portFileName 5432) = some [portFileName 5432] :=
  (port_claim_file_shape 5432 []).2.2.2 (by decide)

/-- C8: claim-file creation arbitrates races — whichever of two
attempts for the same port commits first, the later one observes the
collision, so the two never both succeed; and on a directory not yet
holding the claim, exactly one of the two succeeds. -/
theorem port_claim_race_exclusive (fs : List String) (name : String) :
    (∀ fsAfter, createExclusive fs name = some fsAfter →
      createExclusive fsAfter name = none)
    ∧ (name ∉ fs →
        createExclusive fs name = some (name :: fs)
        ∧ createExclusive (name :: fs) name = none) := by
  constructor
  · intro fsAfter h
    simp only [createExclusive] at h
    split at h
    · exact absurd h (by simp)
    · cases h
      simp [createExclusive]
  · intro h
    constructor
    · simp [createExclusive, h]
    · simp [createExclusive]

/-- Witness for C8 at the port-5432 claim file on an empty directory. -/
theorem port_claim_race_exclusive_witness :
    createExclusive [] (portFileName 5432) = some [portFileName 5432]
    ∧ createExclusive [portFileName 5432] (portFileName 5432) = none :=
  (port_claim_race_exclusive [] (portFileName 5432)).2 (by decide)

/-- Boolean prefix test on character lists. -/
def isPrefixChars : List Char → List Char → Bool
  | [], _ => true
  | _ :: _, [] => false
  | a :: as, b :: bs => a == b && isPrefixChars as bs

/-- Boolean substring test on character lists. -/
def containsChars (pat : List Char) : List Char → Bool
  | [] => isPrefixChars pat []
  | c :: rest => isPrefixChars pat (c :: rest) || containsChars pat rest

/-- Boolean substring test on strings (`pat in s` of the tests). -/
def strContains (s pat : String) : Bool :=
  containsChars pat.toList s.toList

/-- Replacement of the first occurrence at each position, fuelled by the
input length: every occurrence of `pat` in the input is replaced by
`rep`, scanning left to right. -/
def replaceCharsAux (pat rep : List Char) : Nat → List Char → List Char
  | 0, l => l
  | _ + 1, [] => []
  | fuel + 1, c :: rest =>
    if isPrefixChars pat (c :: rest) then
      rep ++ replaceCharsAux pat rep fuel (List.drop (pat.length - 1) rest)
    else c :: replaceCharsAux pat rep fuel rest

/-- Replacement of every occurrence of `pat` in `s` by `rep`, the
semantics of Python's `str.format` for one placeholder. -/
def replaceAll (s pat rep : String) : String :=
  ⟨replaceCharsAux pat.toList rep.toList s.toList.length s.toList⟩

/-- Modelled from the spec: `PostgreSQLExecutor.UNIX_PROC_START_COMMAND`
(pytest_postgresql/executor.py, absent from the sources).  The spec's
section-6 launch command gives the overall shape; the repository's
tests (tests/test_windows_compatibility.py, tests/test_executor.py) pin
this template's distinguishing content: PostgreSQL config values are
single-quoted (`log_destination='stderr'`) and
`unix_socket_directories='{unixsocketdir}'` is present.  Placeholders
are written `{name}`. -/
def UNIX_PROC_START_COMMAND : String :=
  "\x7bexecutable\x7d start -D \"\x7bdatadir\x7d\" -o \"-F -p \x7bport\x7d -c log_destination='stderr' -c logging_collector=off -c unix_socket_directories='\x7bunixsocketdir\x7d' \x7bpostgres_options\x7d\" -l \"\x7blogfile\x7d\" \x7bstartparams\x7d"

/-- Modelled from the spec:
`PostgreSQLExecutor.WINDOWS_PROC_START_COMMAND`
(pytest_postgresql/executor.py, absent from the sources).  The tests
pin its distinguishing content: no single quotes anywhere, no
`unix_socket_directories`, and the fragment sequence asserted by
`test_command_formatting_windows`. -/
def WINDOWS_PROC_START_COMMAND : String :=
  "\x7bexecutable\x7d start -D \"\x7bdatadir\x7d\" -o \"-F -p \x7bport\x7d -c log_destination=stderr -c logging_collector=off \x7bpostgres_options\x7d\" -l \"\x7blogfile\x7d\" \x7bstartparams\x7d"

/-- Launch configuration of a `PostgreSQLExecutor`, restricted to the
fields the start command consumes. -/
structure ExecutorConfig where
  executable : String
  port : Nat
  datadir : String
  unixsocketdir : String
  logfile : String
  startparams : String
  postgres_options : String
deriving DecidableEq, Repr

/-- Substitution of a launch configuration into a command template. -/
def formatStartCommand (template : String) (cfg : ExecutorConfig) : String :=
  replaceAll (replaceAll (replaceAll (replaceAll (replaceAll (replaceAll (replaceAll template
    "\x7bexecutable\x7d" cfg.executable)
    "\x7bdatadir\x7d" cfg.datadir)
    "\x7bport\x7d" (toString cfg.port))
    "\x7bunixsocketdir\x7d" cfg.unixsocketdir)
    "\x7blogfile\x7d" cfg.logfile)
    "\x7bpostgres_options\x7d" cfg.postgres_options)
    "\x7bstartparams\x7d" cfg.startparams

/-- Modelled from the spec: the template selection inside
`PostgreSQLExecutor.command` (executor.py, absent from the sources).
The tests pin the selection on `platform.system()`: the Windows
template exactly on `"Windows"`, the Unix template on every other
platform (Linux, Darwin, FreeBSD). -/
def procStartCommandTemplate (platformSystem : String) : String :=
  if platformSystem == "Windows" then WINDOWS_PROC_START_COMMAND
  else UNIX_PROC_START_COMMAND

/-- Modelled from the spec: `PostgreSQLExecutor.command` (executor.py,
absent from the sources) — the selected template with the launch
configuration substituted in. -/
def executorCommand (cfg : ExecutorConfig) (platformSystem : String) : String :=
  formatStartCommand (procStartCommandTemplate platformSystem) cfg

/-- Launch configuration of `test_command_formatting_windows`. -/
def winTestConfig : ExecutorConfig where
  executable := "C:/Program Files/PostgreSQL/bin/pg_ctl.exe"
  port := 5555
  datadir := "C:/temp/data"
  unixsocketdir := "C:/temp/socket"
  logfile := "C:/temp/log.txt"
  startparams := "-w -s"
  postgres_options := "-c shared_preload_libraries=test"

/-- Launch configuration of
`test_unix_template_protects_paths_with_spaces`: a socket directory
containing spaces. -/
def unixSpacesConfig : ExecutorConfig where
  executable := "/usr/lib/postgresql/16/bin/pg_ctl"
  port := 5432
  datadir := "/tmp/data"
  unixsocketdir := "/tmp/my socket dir"
  logfile := "/tmp/log"
  startparams := "-w"
  postgres_options := ""

/-- C4 counterexample: the start command is not built from a single
unified template across operating systems — the two templates differ,
and one and the same launch configuration yields different commands on
Windows and on Linux. -/
theorem executor_template_not_unified :
    UNIX_PROC_START_COMMAND ≠ WINDOWS_PROC_START_COMMAND
    ∧ executorCommand winTestConfig "Windows" ≠ executorCommand winTestConfig "Linux" := by
  refine ⟨by decide, by decide⟩

/-- C4 (amended): the executor keeps two platform templates, choosing
the Windows one exactly when `platform.system()` is `"Windows"` and the
Unix one otherwise; the Unix template single-quotes PostgreSQL config
values and the socket directory (protecting paths with spaces, as in
the `/tmp/my socket dir` command), while the Windows template contains
no single quote at all and omits `unix_socket_directories`, and
double-quotes the data directory and log file paths. -/
theorem executor_two_platform_templates :
    (∀ cfg p, p ≠ "Windows" →
      executorCommand cfg p = formatStartCommand UNIX_PROC_START_COMMAND cfg)
    ∧ (∀ cfg, executorCommand cfg "Windows"
        = formatStartCommand WINDOWS_PROC_START_COMMAND cfg)
    ∧ strContains UNIX_PROC_START_COMMAND "log_destination='stderr'" = true
    ∧ strContains UNIX_PROC_START_COMMAND
        "unix_socket_directories='\x7bunixsocketdir\x7d'" = true
    ∧ strContains WINDOWS_PROC_START_COMMAND "'" = false
    ∧ strContains WINDOWS_PROC_START_COMMAND "unix_socket_directories" = false
    ∧ strContains (executorCommand unixSpacesConfig "Linux")
        "unix_socket_directories='/tmp/my socket dir'" = true
    ∧ strContains (executorCommand winTestConfig "Windows")
        "-D \"C:/temp/data\"" = true
    ∧ strContains (executorCommand winTestConfig "Windows")
        "-o \"-F -p 5555 -c log_destination=stderr" = true
    ∧ strContains (executorCommand winTestConfig "Windows")
        "-c shared_preload_libraries=test\"" = true
    ∧ strContains (executorCommand winTestConfig "Windows")
        "-l \"C:/temp/log.txt\"" = true := by
  refine ⟨fun cfg p h => ?_, fun cfg => rfl, by decide, by decide, by decide, by decide,
    by decide, by decide, by decide, by decide, by decide⟩
  simp only [executorCommand, procStartCommandTemplate]
  rw [if_neg]
  simp [h]

/-- Witness for C4 (amended): the Linux command of the spaces
configuration is the Unix-template substitution. -/
theorem executor_two_platform_templates_witness :
    executorCommand unixSpacesConfig "Linux"
      = formatStartCommand UNIX_PROC_START_COMMAND unixSpacesConfig :=
  executor_two_platform_templates.1 unixSpacesConfig "Linux" (by decide)

end PytestPostgresql
